import Mathlib

/-
  Verification development for the SeExpr expression-engine core
  (src/SeExpr/SeExprNode.cpp).

  The development has two layers, mirroring the two passes of the engine:

  * a prep layer: a deep embedding of the AST node taxonomy together with
    the type-checking pass `prep(wanted, env)` of SeExprNode.cpp, threading
    the variable environment and the expression-level error list explicitly;

  * an eval layer: a deep embedding of the prepped (annotated) AST — each
    node carries the `_isVec` flag computed during prep, and Var/Assign
    nodes carry their resolved local-variable reference — together with the
    evaluation pass `eval(result)`, threading the out-parameter vector and
    the local-variable storage explicitly.

  Machine doubles are idealised as rationals (ℚ); IEEE rounding, NaN and
  infinity behaviour are outside the scope of the embedding.
-/

namespace SeExpr

/-- Modelled from the spec: the type descriptor of SeExprType.h, which is not
under src/. A value is FP1 (scalar), FPN(n) (n-wide numeric vector), String,
None (statement), Any and Numeric (prep requests only) or Error (poisoned). -/
inductive SeExprType where
  | fp1
  | fpn (n : Nat)
  | str
  | none
  | any
  | numeric
  | error
deriving DecidableEq, Repr

namespace SeExprType

/-- Modelled from the spec: `isValid()` is true unless the type is Error. -/
def isValid : SeExprType → Bool
  | .error => false
  | _ => true

/-- Modelled from the spec: the subtype check `isa` of SeExprType.h (not under
src/). `Error.isa(_)` is false; every valid type isa `Any`; FP1 and FPN(n) are
`Numeric`; FPN(1) is equivalent to FP1; otherwise `isa` is reflexive. -/
def isa : SeExprType → SeExprType → Bool
  | .error, _ => false
  | _, .any => true
  | .fp1, .fp1 => true
  | .fp1, .numeric => true
  | .fp1, .fpn n => n == 1
  | .fpn _, .numeric => true
  | .fpn n, .fpn m => n == m
  | .fpn n, .fp1 => n == 1
  | .str, .str => true
  | .none, .none => true
  | .numeric, .numeric => true
  | _, _ => false

/-- Modelled from the spec: `compatibleNum(a,b)` of SeExprType.h (not under
src/) is true iff both types are numeric and combinable under broadcasting:
both FP1, both FPN(3), or one FP1 and one FPN(3). -/
def compatibleNum (a b : SeExprType) : Bool :=
  decide ((a = .fp1 ∨ a = .fpn 3) ∧ (b = .fp1 ∨ b = .fpn 3))

/-- Modelled from the spec: `isFP1()` is true only for FP1. -/
def isFP1 : SeExprType → Bool
  | .fp1 => true
  | _ => false

/-- Modelled from the spec: `toString()` of SeExprType.h (not under src/),
used only to build the human-readable error messages. -/
def toStr : SeExprType → String
  | .fp1 => "FP1"
  | .fpn n => "FPN(" ++ toString n ++ ")"
  | .str => "String"
  | .none => "None"
  | .any => "Any"
  | .numeric => "Numeric"
  | .error => "Error"

end SeExprType

/-- A scope frame: the bindings added in one lexical scope, innermost binding
first. During prep a local-variable reference is characterised by its type
(SeExprLocalVarRef stores the assigned type). -/
abbrev Frame := List (String × SeExprType)

/-- The expression-level error list (SeExpression owns it; nodes append via
`addError`). Only the messages are modelled, not the node positions. -/
abbrev Errs := List String

/-- Modelled from the spec: the variable environment SeExprVarEnv (not under
src/): a stack of frames, innermost first; lookup walks outward. -/
abbrev Env := List Frame

/-- Lookup of a name in one frame (first binding wins). -/
def frameLookup (f : Frame) (n : String) : Option SeExprType :=
  match f.find? (fun p => p.1 == n) with
  | Option.some p => Option.some p.2
  | Option.none => Option.none

/-- Modelled from the spec: `SeExprVarEnv::find` walks from the innermost
frame outward. -/
def envFind : Env → String → Option SeExprType
  | [], _ => Option.none
  | f :: fs, n =>
    match frameLookup f n with
    | Option.some t => Option.some t
    | Option.none => envFind fs n

/-- Modelled from the spec: `SeExprVarEnv::newScope(parent)` pushes an empty
frame that delegates unresolved names to the parent. -/
def newScope (e : Env) : Env := [] :: e

/-- Modelled from the spec: `SeExprVarEnv::add(name, ref)` inserts into the
current (innermost) frame; shadowing is legal. -/
def envAddVar : Env → String → SeExprType → Env
  | [], n, t => [[(n, t)]]
  | f :: fs, n, t => ((n, t) :: f) :: fs

/-- The innermost frame of an environment (the additions of a child scope). -/
def headFrame : Env → Frame
  | [] => []
  | f :: _ => f

/-- An environment with its innermost frame removed (the parent seen through a
child scope). -/
def tailEnv : Env → Env
  | [] => []
  | _ :: fs => fs

/-- Modelled from the spec: `changesMatch(a,b)` is true iff the two sibling
child scopes declared exactly the same names with the same types. -/
def changesMatch (a b : Frame) : Bool :=
  a.all (fun p => frameLookup b p.1 == frameLookup a p.1) &&
  b.all (fun p => frameLookup a p.1 == frameLookup b p.1)

/-- Modelled from the spec: `SeExprVarEnv::add(other_env)` merges the names a
child scope introduced into the current frame of the parent environment. -/
def envAddFrame : Env → Frame → Env
  | [], f => [f]
  | g :: fs, f => (f ++ g) :: fs

/-- Modelled from the spec: the function descriptor of SeExprFunc.h (not under
src/): return type, min/max argument counts (negative max = unbounded) and
whether the declared calling convention is scalar. FUNCX callbacks are host
code outside the repository and are not modelled. -/
structure FuncDesc where
  retType : SeExprType
  minArgs : Int
  maxArgs : Int
  isScalar : Bool
deriving DecidableEq, Repr

/-- Modelled from the spec: the external collaborators consulted during prep —
the Expression facade's `resolveVar` and `resolveFunc` host hooks and the
process-wide registry `SeExprFunc::lookup`. A host variable reference is
characterised by its type. -/
structure Ctx where
  resolveVar : String → Option SeExprType
  resolveFunc : String → Option FuncDesc
  lookupFunc : String → Option FuncDesc

mutual

/-- The AST node taxonomy of SeExprNode.cpp (source-side, before prep).
`vec` always has three children, as built by the grammar for `[a,b,c]`.
FUNCX-convention calls are host-prepped and are not modelled. -/
inductive Expr where
  | num (v : ℚ)
  | strN (s : String)
  | varN (name : String)
  | assign (name : String) (rhs : Expr)
  | block (stmt e : Expr)
  | ifThenElse (c t e : Expr)
  | cond (c t e : Expr)
  | andN (a b : Expr)
  | orN (a b : Expr)
  | notN (a : Expr)
  | neg (a : Expr)
  | invert (a : Expr)
  | eqN (a b : Expr)
  | neN (a b : Expr)
  | ltN (a b : Expr)
  | gtN (a b : Expr)
  | leN (a b : Expr)
  | geN (a b : Expr)
  | add (a b : Expr)
  | sub (a b : Expr)
  | mul (a b : Expr)
  | div (a b : Expr)
  | mod (a b : Expr)
  | exp (a b : Expr)
  | vec (a b c : Expr)
  | subscript (v i : Expr)
  | func (name : String) (args : ExprList)

/-- The ordered child list of a function-call node. -/
inductive ExprList where
  | nil
  | cons (head : Expr) (tail : ExprList)

end

/-- Number of child arguments of a call (`numChildren` for a Func node). -/
def exprListLength : ExprList → Nat
  | .nil => 0
  | .cons _ t => exprListLength t + 1

/-- The recurring prep check pattern of SeExprNode.cpp: if the child's type is
invalid the error flag is set silently (the child already reported); if it is
valid but fails `isa(wanted)`, the flag is set and `msg` is appended. Returns
the error contribution and the updated error list. -/
def checkIsa (wanted t : SeExprType) (msg : String) (errs : Errs) : Bool × Errs :=
  if !t.isValid then (true, errs)
  else if !(t.isa wanted) then (true, errs ++ [msg])
  else (false, errs)

/-- The operand message of the binary numeric operators (note: the source has
no space after "found"). -/
def numOperandMsg (which op : String) (t : SeExprType) : String :=
  "Expected Numeric type from " ++ which ++ " operand to " ++ op ++
    " operator but found" ++ t.toStr

/-- The tail shared by all twelve binary numeric prep bodies (comparison and
arithmetic nodes, SeExprNode.cpp lines 703-1388): the compatibleNum check and
the final type. A comparison node's type is FP1; an arithmetic node's type is
the second operand if the first is FP1, else the first (the wider operand). -/
def binFinish (arith : Bool) (op : String) (t1 t2 : SeExprType) (e1 e2 : Bool)
    (errs : Errs) : SeExprType × Errs :=
  let r :=
    if t1.isValid && t2.isValid && !(t1.compatibleNum t2) then
      (true, errs ++ ["Types " ++ t1.toStr ++ " and " ++ t2.toStr ++
        " are not compatible types for " ++ op ++ " operator"])
    else (false, errs)
  (if e1 || e2 || r.1 then .error else
    if arith then (if t1.isFP1 then t2 else t1) else .fp1, r.2)

mutual

/-- The prep pass of SeExprNode.cpp: `prep(wanted, env)` preps the children in
source order, records errors, and returns the node's own type. The environment
and the error list are threaded explicitly. In the if/then/else case the
source passes the parent env by reference to both `newScope` calls; since
every prep mutation touches only the innermost frame, the parent after a
branch is the tail of the branch environment, which is how the aliasing is
rendered here. -/
def prep (ctx : Ctx) : Expr → SeExprType → Env → Errs → SeExprType × Env × Errs
  | .num _, _, env, errs => (.fp1, env, errs)
  | .strN _, _, env, errs => (.str, env, errs)
  | .varN n, _, env, errs =>
    (match envFind env n with
     | Option.some t => (t, env, errs)
     | Option.none =>
       match ctx.resolveVar n with
       | Option.some t => (t, env, errs)
       | Option.none => (.error, env, errs ++ ["No variable named $" ++ n]))
  | .assign n rhs, _, env, errs =>
    let p := prep ctx rhs .any env errs
    ((if p.1.isValid then SeExprType.none else .error),
     envAddVar p.2.1 n p.1, p.2.2)
  | .block s e, wanted, env, errs =>
    let p := prep ctx s .any env errs
    let q := prep ctx e wanted p.2.1 p.2.2
    ((if p.1.isValid then q.1 else .error), q.2.1, q.2.2)
  | .ifThenElse c t e, _, env, errs =>
    let pc := prep ctx c .fp1 env errs
    let kc := checkIsa .fp1 pc.1
      ("Expected FP1 type in condition expression of if statement but found "
        ++ pc.1.toStr) pc.2.2
    let pt := prep ctx t .any (newScope pc.2.1) kc.2
    let pe := prep ctx e .any (newScope (tailEnv pt.2.1)) pt.2.2
    let thenFrame := headFrame pt.2.1
    let elseFrame := headFrame pe.2.1
    let envParent := tailEnv pe.2.1
    let branchBad := !pt.1.isValid || !pe.1.isValid
    if changesMatch thenFrame elseFrame then
      ((if kc.1 || branchBad then .error else SeExprType.none),
       envAddFrame envParent thenFrame, pe.2.2)
    else
      (.error, envParent,
       pe.2.2 ++ ["Types of variables do not match after if statement"])
  | .cond c t e, wanted, env, errs =>
    let pc := prep ctx c .fp1 env errs
    let kc := checkIsa .fp1 pc.1
      ("Expected FP1 type in condition of ternary conditional expression but found "
        ++ pc.1.toStr) pc.2.2
    let pt := prep ctx t wanted pc.2.1 kc.2
    let pe := prep ctx e wanted pt.2.1 pt.2.2
    if !pt.1.isValid || !pe.1.isValid then (.error, pe.2.1, pe.2.2)
    else
      let r1 :=
        if pt.1.isa wanted then
          (true, pe.2.2 ++ ["Expected " ++ wanted.toStr ++
            " type from then branch of ternary conditional expression but found "
            ++ pt.1.toStr])
        else (false, pe.2.2)
      let r2 :=
        if pe.1.isa wanted then
          (true, r1.2 ++ ["Expected " ++ wanted.toStr ++
            " type from else branch of ternary conditional expression but found "
            ++ pe.1.toStr])
        else (false, r1.2)
      ((if kc.1 || r1.1 || r2.1 then .error else pt.1), pe.2.1, r2.2)
  | .andN a b, _, env, errs =>
    let p1 := prep ctx a .fp1 env errs
    let k1 := checkIsa .fp1 p1.1
      ("Expected FP1 type from first operand of and expression but found "
        ++ p1.1.toStr) p1.2.2
    let p2 := prep ctx b .fp1 p1.2.1 k1.2
    let k2 := checkIsa .fp1 p2.1
      ("Expected FP1 type from second operand of and expression but found "
        ++ p2.1.toStr) p2.2.2
    ((if k1.1 || k2.1 then .error else .fp1), p2.2.1, k2.2)
  | .orN a b, _, env, errs =>
    let p1 := prep ctx a .fp1 env errs
    let k1 := checkIsa .fp1 p1.1
      ("Expected FP1 type from first operand of or expression but found "
        ++ p1.1.toStr) p1.2.2
    let p2 := prep ctx b .fp1 p1.2.1 k1.2
    let k2 := checkIsa .fp1 p2.1
      ("Expected FP1 type from second operand of or expression but found "
        ++ p2.1.toStr) p2.2.2
    ((if k1.1 || k2.1 then .error else .fp1), p2.2.1, k2.2)
  | .notN a, wanted, env, errs =>
    let p := prep ctx a wanted env errs
    if p.1.isValid && !(p.1.isa .numeric) then
      (.error, p.2.1, p.2.2 ++
        ["Expected Numeric type from operand to not operator but found "
          ++ p.1.toStr])
    else (p.1, p.2.1, p.2.2)
  | .neg a, wanted, env, errs =>
    let p := prep ctx a wanted env errs
    if p.1.isValid && !(p.1.isa .numeric) then
      (.error, p.2.1, p.2.2 ++
        ["Expected Numeric type from operand to negation operator but found "
          ++ p.1.toStr])
    else (p.1, p.2.1, p.2.2)
  | .invert a, wanted, env, errs =>
    let p := prep ctx a wanted env errs
    if p.1.isValid && !(p.1.isa .numeric) then
      (.error, p.2.1, p.2.2 ++
        ["Expected Numeric type from operand to inversion operator but found "
          ++ p.1.toStr])
    else (p.1, p.2.1, p.2.2)
  | .eqN a b, _, env, errs => binNumPrep ctx false "==" a b env errs
  | .neN a b, _, env, errs => binNumPrep ctx false "!=" a b env errs
  | .ltN a b, _, env, errs => binNumPrep ctx false "<" a b env errs
  | .gtN a b, _, env, errs => binNumPrep ctx false ">" a b env errs
  | .leN a b, _, env, errs => binNumPrep ctx false "<=" a b env errs
  | .geN a b, _, env, errs => binNumPrep ctx false ">=" a b env errs
  | .add a b, _, env, errs => binNumPrep ctx true "+" a b env errs
  | .sub a b, _, env, errs => binNumPrep ctx true "-" a b env errs
  | .mul a b, _, env, errs => binNumPrep ctx true "*" a b env errs
  | .div a b, _, env, errs => binNumPrep ctx true "/" a b env errs
  | .mod a b, _, env, errs => binNumPrep ctx true "%" a b env errs
  | .exp a b, _, env, errs => binNumPrep ctx true "^" a b env errs
  | .vec a b c, _, env, errs =>
    let p1 := prep ctx a .fp1 env errs
    let k1 := checkIsa .fp1 p1.1
      ("Expected FP1 type in vector literal but found " ++ p1.1.toStr ++
        " in position 1") p1.2.2
    let p2 := prep ctx b .fp1 p1.2.1 k1.2
    let k2 := checkIsa .fp1 p2.1
      ("Expected FP1 type in vector literal but found " ++ p2.1.toStr ++
        " in position 2") p2.2.2
    let p3 := prep ctx c .fp1 p2.2.1 k2.2
    let k3 := checkIsa .fp1 p3.1
      ("Expected FP1 type in vector literal but found " ++ p3.1.toStr ++
        " in position 3") p3.2.2
    ((if k1.1 || k2.1 || k3.1 then .error else .fpn 3), p3.2.1, k3.2)
  | .subscript v i, _, env, errs =>
    let p1 := prep ctx v .numeric env errs
    let k1 := checkIsa .numeric p1.1
      ("Expected Numeric type from vector operand of subscript operator but found "
        ++ p1.1.toStr) p1.2.2
    let p2 := prep ctx i .fp1 p1.2.1 k1.2
    let k2 := checkIsa .fp1 p2.1
      ("Expected FP1 type from subscript operand of subscript operator but found "
        ++ p2.1.toStr) p2.2.2
    ((if k1.1 || k2.1 then .error else .fp1), p2.2.1, k2.2)
  | .func n args, _, env, errs =>
    match (match ctx.resolveFunc n with
           | Option.some d => Option.some d
           | Option.none => ctx.lookupFunc n) with
    | Option.none =>
      -- the error flag is NOT set on this path (the source comments it out);
      -- the base-class prep then overwrites _type with None or Error
      let p := anyPrepList ctx args env
        (errs ++ ["Function " ++ n ++ " has no definition"])
      ((if p.1 then .error else SeExprType.none), p.2.1, p.2.2)
    | Option.some d =>
      if (exprListLength args : Int) < d.minArgs then
        let p := anyPrepList ctx args env
          (errs ++ ["Too few args for function " ++ n])
        (.error, p.2.1, p.2.2)
      else if (exprListLength args : Int) > d.maxArgs && d.maxArgs ≥ 0 then
        let p := anyPrepList ctx args env
          (errs ++ ["Too many args for function " ++ n])
        (.error, p.2.1, p.2.2)
      else
        let w := if d.isScalar then SeExprType.fp1 else SeExprType.fpn 3
        let p := prepArgsList ctx w args 0 env errs
        ((if p.1 then .error else d.retType), p.2.1, p.2.2)
termination_by e _ _ _ => 2 * sizeOf e

/-- The twelve-way shared body of the binary numeric prep methods
(SeExprEqNode through SeExprExpNode, SeExprNode.cpp lines 703-1388): prep both
operands with Numeric, check each, check compatibility, combine. -/
def binNumPrep (ctx : Ctx) (arith : Bool) (op : String) (a b : Expr)
    (env : Env) (errs : Errs) : SeExprType × Env × Errs :=
  let p1 := prep ctx a .numeric env errs
  let k1 := checkIsa .numeric p1.1 (numOperandMsg "first" op p1.1) p1.2.2
  let p2 := prep ctx b .numeric p1.2.1 k1.2
  let k2 := checkIsa .numeric p2.1 (numOperandMsg "second" op p2.1) p2.2.2
  let r := binFinish arith op p1.1 p2.1 k1.1 k2.1 k2.2
  (r.1, p2.2.1, r.2)
termination_by 2 * (sizeOf a + sizeOf b) + 1

/-- SeExprFuncNode::prepArgs: prep each argument with the declared wanted
type, counting from 0, flagging any that is invalid or not `isa(wanted)`. -/
def prepArgsList (ctx : Ctx) (wanted : SeExprType) :
    ExprList → Nat → Env → Errs → Bool × Env × Errs
  | .nil, _, env, errs => (false, env, errs)
  | .cons h t, count, env, errs =>
    let p := prep ctx h wanted env errs
    let k := checkIsa wanted p.1
      ("Expected " ++ wanted.toStr ++ " type from " ++ toString count ++
        " operand to placeholder function but found" ++ p.1.toStr) p.2.2
    let rest := prepArgsList ctx wanted t (count + 1) p.2.1 k.2
    (k.1 || rest.1, rest.2.1, rest.2.2)
termination_by l _ _ _ => 2 * sizeOf l

/-- The base-class SeExprNode::prep (lines 191-213), as invoked on the failure
paths of SeExprFuncNode::prep: prep every child with Any and report whether
any child's type is invalid (in which case the base sets the type to Error,
otherwise to None). -/
def anyPrepList (ctx : Ctx) : ExprList → Env → Errs → Bool × Env × Errs
  | .nil, env, errs => (false, env, errs)
  | .cons h t, env, errs =>
    let p := prep ctx h .any env errs
    let rest := anyPrepList ctx t p.2.1 p.2.2
    (!p.1.isValid || rest.1, rest.2.1, rest.2.2)
termination_by l _ _ => 2 * sizeOf l

end

/-- A 3-wide value (SeVec3d); machine doubles are idealised as rationals. -/
structure Vec3 where
  x : ℚ
  y : ℚ
  z : ℚ
deriving DecidableEq, Repr

/-- The zero vector: `result = 0.0` assigns all three lanes. The locally
declared scratch vectors of the eval methods are also modelled as starting
from zero (their C++ contents are indeterminate and never read before being
written). -/
def vzero : Vec3 := ⟨0, 0, 0⟩

/-- The broadcasting rule `a[1] = a[2] = a[0]` applied to a scalar child's
output. -/
def bcast (v : Vec3) : Vec3 := ⟨v.x, v.x, v.x⟩

/-- The storage cells of the local variables (the SeExprLocalVarRef values),
addressed by resolved reference. -/
abbrev Store := List (Nat × Vec3)

/-- Read a local-variable cell (a fresh cell holds zero). -/
def storeGet (st : Store) (r : Nat) : Vec3 :=
  match st.find? (fun p => p.1 == r) with
  | Option.some p => p.2
  | Option.none => vzero

/-- Overwrite a local-variable cell. -/
def storeSet (st : Store) (r : Nat) (v : Vec3) : Store := (r, v) :: st

/-- niceMod of SeExprNode.cpp lines 1279-1283: floor-mod, with
`niceMod(a, 0) = 0` as the single defined exception. -/
def niceMod (a b : ℚ) : ℚ := if b = 0 then 0 else a - ⌊a / b⌋ * b

/-- Modelled from the spec: the math.h `pow` on doubles (an external library
function), idealised on rationals: integer exponents use zpow, anything else
falls outside the idealisation and yields 0. No claim depends on its values. -/
def qpow (a b : ℚ) : ℚ := if b.den = 1 then a ^ b.num else 0

/-- The C cast `int(d)` used by the subscript operator: truncation toward
zero. -/
def truncQ (q : ℚ) : Int := if q < 0 then ⌈q⌉ else ⌊q⌋

/-- The prepped (annotated) AST walked by the eval pass: every node carries
the `_isVec` flag computed during prep, and Var/Assign nodes carry their
resolved local-variable reference (`_var`, absent when resolution failed or
the variable is external). Function calls dispatch into host descriptors and
are not modelled; string literals are only read through the getStrArg channel
and never evaluated. -/
inductive RExpr where
  | num (iv : Bool) (v : ℚ)
  | varR (iv : Bool) (ref : Option Nat)
  | assign (iv : Bool) (ref : Option Nat) (rhs : RExpr)
  | block (iv : Bool) (s e : RExpr)
  | ifThenElse (iv : Bool) (c t e : RExpr)
  | cond (iv : Bool) (c t e : RExpr)
  | andR (iv : Bool) (a b : RExpr)
  | orR (iv : Bool) (a b : RExpr)
  | notR (iv : Bool) (a : RExpr)
  | neg (iv : Bool) (a : RExpr)
  | invert (iv : Bool) (a : RExpr)
  | eqR (iv : Bool) (a b : RExpr)
  | neR (iv : Bool) (a b : RExpr)
  | ltR (iv : Bool) (a b : RExpr)
  | gtR (iv : Bool) (a b : RExpr)
  | leR (iv : Bool) (a b : RExpr)
  | geR (iv : Bool) (a b : RExpr)
  | add (iv : Bool) (a b : RExpr)
  | sub (iv : Bool) (a b : RExpr)
  | mul (iv : Bool) (a b : RExpr)
  | div (iv : Bool) (a b : RExpr)
  | mod (iv : Bool) (a b : RExpr)
  | exp (iv : Bool) (a b : RExpr)
  | vec (iv : Bool) (a b c : RExpr)
  | subscript (iv : Bool) (v i : RExpr)
deriving DecidableEq, Repr

/-- `SeExprNode::isVec()`: the flag stored on the node by prep. -/
def RExpr.isVec : RExpr → Bool
  | .num iv _ => iv
  | .varR iv _ => iv
  | .assign iv _ _ => iv
  | .block iv _ _ => iv
  | .ifThenElse iv _ _ _ => iv
  | .cond iv _ _ _ => iv
  | .andR iv _ _ => iv
  | .orR iv _ _ => iv
  | .notR iv _ => iv
  | .neg iv _ => iv
  | .invert iv _ => iv
  | .eqR iv _ _ => iv
  | .neR iv _ _ => iv
  | .ltR iv _ _ => iv
  | .gtR iv _ _ => iv
  | .leR iv _ _ => iv
  | .geR iv _ _ => iv
  | .add iv _ _ => iv
  | .sub iv _ _ => iv
  | .mul iv _ _ => iv
  | .div iv _ _ => iv
  | .mod iv _ _ => iv
  | .exp iv _ _ => iv
  | .vec iv _ _ _ => iv
  | .subscript iv _ _ => iv

/-- The shared body of the binary arithmetic eval methods (SeExprNode.cpp
lines 1072-1411): a scalar node combines lane 0 only, leaving the other lanes
of the out-parameter untouched; a vector node broadcasts any scalar child and
combines lane-wise. -/
def binArithEval (f : ℚ → ℚ → ℚ) (iv cv0 cv1 : Bool) (a b res : Vec3) : Vec3 :=
  if iv then
    let a1 := if cv0 then a else bcast a
    let b1 := if cv1 then b else bcast b
    ⟨f a1.x b1.x, f a1.y b1.y, f a1.z b1.z⟩
  else ⟨f a.x b.x, res.y, res.z⟩

/-- The eval pass of SeExprNode.cpp: `eval(result)` with the out-parameter
semantics made explicit — each node receives the previous contents of its
output vector (scalar nodes write only lane 0) — and the local-variable
storage threaded through. Assignment evaluates its rhs directly into the
variable's cell, passing the cell's previous contents as the out-parameter. -/
def evalR : RExpr → Vec3 → Store → Vec3 × Store
  | .num _ v, res, st => ({ res with x := v }, st)
  | .varR _ ref, _, st =>
    (match ref with
     | Option.some r => (storeGet st r, st)
     | Option.none => (vzero, st))
  | .assign _ ref rhs, res, st =>
    (match ref with
     | Option.some r =>
       let p := evalR rhs (storeGet st r) st
       (res, storeSet p.2 r p.1)
     | Option.none => (vzero, st))
  | .block _ s e, res, st =>
    let p := evalR s vzero st
    evalR e res p.2
  | .ifThenElse _ c t e, _, st =>
    let p := evalR c vzero st
    let q := if p.1.x = 0 then evalR e p.1 p.2 else evalR t p.1 p.2
    (vzero, q.2)
  | .cond iv c t e, res, st =>
    let p := evalR c vzero st
    let q := if p.1.x = 0 then evalR e res p.2 else evalR t res p.2
    let chosenVec := if p.1.x = 0 then e.isVec else t.isVec
    ((if iv && !chosenVec then bcast q.1 else q.1), q.2)
  | .andR _ a b, res, st =>
    let p := evalR a vzero st
    if p.1.x = 0 then ({ res with x := 0 }, p.2)
    else
      let q := evalR b vzero p.2
      ({ res with x := if q.1.x = 0 then 0 else 1 }, q.2)
  | .orR _ a b, res, st =>
    let p := evalR a vzero st
    if p.1.x = 0 then
      let q := evalR b vzero p.2
      ({ res with x := if q.1.x = 0 then 0 else 1 }, q.2)
    else ({ res with x := 1 }, p.2)
  | .notR iv a, res, st =>
    let p := evalR a vzero st
    ((if iv then
        ⟨if p.1.x = 0 then 1 else 0, if p.1.y = 0 then 1 else 0,
         if p.1.z = 0 then 1 else 0⟩
      else ⟨if p.1.x = 0 then 1 else 0, res.y, res.z⟩), p.2)
  | .neg iv a, res, st =>
    let p := evalR a vzero st
    ((if iv then ⟨-p.1.x, -p.1.y, -p.1.z⟩ else ⟨-p.1.x, res.y, res.z⟩), p.2)
  | .invert iv a, res, st =>
    let p := evalR a vzero st
    ((if iv then ⟨1 - p.1.x, 1 - p.1.y, 1 - p.1.z⟩
      else ⟨1 - p.1.x, res.y, res.z⟩), p.2)
  | .eqR _ a b, res, st =>
    let p := evalR a vzero st
    let q := evalR b vzero p.2
    let a1 := if a.isVec then p.1 else bcast p.1
    let b1 := if b.isVec then q.1 else bcast q.1
    ({ res with x := if a1.x = b1.x ∧ a1.y = b1.y ∧ a1.z = b1.z then 1 else 0 },
     q.2)
  | .neR _ a b, res, st =>
    let p := evalR a vzero st
    let q := evalR b vzero p.2
    let a1 := if a.isVec then p.1 else bcast p.1
    let b1 := if b.isVec then q.1 else bcast q.1
    ({ res with x := if a1.x ≠ b1.x ∨ a1.y ≠ b1.y ∨ a1.z ≠ b1.z then 1 else 0 },
     q.2)
  | .ltR _ a b, res, st =>
    let p := evalR a vzero st
    let q := evalR b vzero p.2
    ({ res with x := if p.1.x < q.1.x then 1 else 0 }, q.2)
  | .gtR _ a b, res, st =>
    let p := evalR a vzero st
    let q := evalR b vzero p.2
    ({ res with x := if q.1.x < p.1.x then 1 else 0 }, q.2)
  | .leR _ a b, res, st =>
    let p := evalR a vzero st
    let q := evalR b vzero p.2
    ({ res with x := if p.1.x ≤ q.1.x then 1 else 0 }, q.2)
  | .geR _ a b, res, st =>
    let p := evalR a vzero st
    let q := evalR b vzero p.2
    ({ res with x := if q.1.x ≤ p.1.x then 1 else 0 }, q.2)
  | .add iv a b, res, st =>
    let p := evalR a vzero st
    let q := evalR b vzero p.2
    (binArithEval (fun u v => u + v) iv a.isVec b.isVec p.1 q.1 res, q.2)
  | .sub iv a b, res, st =>
    let p := evalR a vzero st
    let q := evalR b vzero p.2
    (binArithEval (fun u v => u - v) iv a.isVec b.isVec p.1 q.1 res, q.2)
  | .mul iv a b, res, st =>
    let p := evalR a vzero st
    let q := evalR b vzero p.2
    (binArithEval (fun u v => u * v) iv a.isVec b.isVec p.1 q.1 res, q.2)
  | .div iv a b, res, st =>
    let p := evalR a vzero st
    let q := evalR b vzero p.2
    (binArithEval (fun u v => u / v) iv a.isVec b.isVec p.1 q.1 res, q.2)
  | .mod iv a b, res, st =>
    let p := evalR a vzero st
    let q := evalR b vzero p.2
    (binArithEval niceMod iv a.isVec b.isVec p.1 q.1 res, q.2)
  | .exp iv a b, res, st =>
    let p := evalR a vzero st
    let q := evalR b vzero p.2
    (binArithEval qpow iv a.isVec b.isVec p.1 q.1 res, q.2)
  | .vec iv a b c, res, st =>
    if iv then
      let p1 := evalR a vzero st
      let p2 := evalR b p1.1 p1.2
      let p3 := evalR c p2.1 p2.2
      (⟨p1.1.x, p2.1.x, p3.1.x⟩, p3.2)
    else evalR a res st
  | .subscript _ v i, res, st =>
    let p := evalR v vzero st
    let q := evalR i vzero p.2
    let idx := truncQ q.1.x
    ({ res with x :=
        if v.isVec then
          if idx = 0 then p.1.x
          else if idx = 1 then p.1.y
          else if idx = 2 then p.1.z
          else 0
        else
          if idx = 0 then p.1.x
          else if idx = 1 then p.1.x
          else if idx = 2 then p.1.x
          else 0 }, q.2)

/-- The empty host: no external variables, no resolvable functions and an
empty global registry. -/
def emptyCtx : Ctx :=
  ⟨fun _ => Option.none, fun _ => Option.none, fun _ => Option.none⟩

/-- A tag for the six binary arithmetic operators Add, Sub, Mul, Div, Mod,
Exp. -/
inductive ArithKind where
  | addK
  | subK
  | mulK
  | divK
  | modK
  | expK

/-- The annotated arithmetic node of a given kind. -/
def mkArithR : ArithKind → Bool → RExpr → RExpr → RExpr
  | .addK, iv, a, b => .add iv a b
  | .subK, iv, a, b => .sub iv a b
  | .mulK, iv, a, b => .mul iv a b
  | .divK, iv, a, b => .div iv a b
  | .modK, iv, a, b => .mod iv a b
  | .expK, iv, a, b => .exp iv a b

/-- The source arithmetic node of a given kind. -/
def mkArithE : ArithKind → Expr → Expr → Expr
  | .addK, a, b => .add a b
  | .subK, a, b => .sub a b
  | .mulK, a, b => .mul a b
  | .divK, a, b => .div a b
  | .modK, a, b => .mod a b
  | .expK, a, b => .exp a b

/-- The operator character used in the error messages of each arithmetic
node. -/
def opStr : ArithKind → String
  | .addK => "+"
  | .subK => "-"
  | .mulK => "*"
  | .divK => "/"
  | .modK => "%"
  | .expK => "^"

/-- C2, counterexample: evaluating an Assign node that holds a resolved local
variable does NOT set the output vector to zero — SeExprAssignNode::eval
(lines 326-338) writes `result = 0.0` only on the branch where `_var` is
null. Here `$v = 5` evaluated with output vector (9,9,9) stores (5,0,0) into
the variable's cell but leaves the output at (9,9,9). -/
theorem assign_eval_out_not_zero :
    (evalR (.assign false (Option.some 0) (.num false 5)) ⟨9, 9, 9⟩ []).1 ≠ vzero ∧
    storeGet (evalR (.assign false (Option.some 0) (.num false 5)) ⟨9, 9, 9⟩ []).2 0 =
      ⟨5, 0, 0⟩ := by
  constructor
  · simp [evalR, storeGet, storeSet, vzero]
  · simp [evalR, storeGet, storeSet, vzero]

/-- C2, amended: when the Assign node holds a resolved local variable, eval
evaluates the right-hand side directly into the variable's storage cell
(passing the cell's previous contents as the out-parameter) and leaves the
output vector unchanged; only when no variable is resolved is the output set
to zero, and then nothing is stored. -/
theorem assign_eval_spec (iv : Bool) (r : Nat) (rhs : RExpr) (res : Vec3)
    (st : Store) :
    evalR (.assign iv (Option.some r) rhs) res st =
      (res, storeSet (evalR rhs (storeGet st r) st).2 r
        (evalR rhs (storeGet st r) st).1) ∧
    evalR (.assign iv Option.none rhs) res st = (vzero, st) := by
  constructor
  · simp [evalR]
  · simp [evalR]

/-- C3: the modulo operator evaluates lane 0 of a scalar Mod node to
`niceMod a b`, where `niceMod a b = a - floor(a/b) * b` when `b` is nonzero
and `niceMod a 0 = 0`; a vector Mod node applies `niceMod` per lane. -/
theorem mod_eval_niceMod (a b a1 a2 a3 b1 b2 b3 : ℚ) (res : Vec3) (st : Store) :
    ((evalR (.mod false (.num false a) (.num false b)) res st).1.x = niceMod a b) ∧
    (b ≠ 0 → niceMod a b = a - ⌊a / b⌋ * b) ∧
    (b = 0 → niceMod a b = 0) ∧
    ((evalR (.mod true
        (.vec true (.num false a1) (.num false a2) (.num false a3))
        (.vec true (.num false b1) (.num false b2) (.num false b3))) res st).1 =
      ⟨niceMod a1 b1, niceMod a2 b2, niceMod a3 b3⟩) := by
  refine ⟨?_, ?_, ?_, ?_⟩
  · simp [evalR, binArithEval, RExpr.isVec]
  · intro h; simp [niceMod, h]
  · intro h; simp [niceMod, h]
  · simp [evalR, binArithEval, RExpr.isVec]

/-- C3, witness: `7 % 2` follows the floor-mod formula and `7 % 0 = 0`. -/
theorem mod_eval_niceMod_witness :
    ((2 : ℚ) ≠ 0 ∧ niceMod 7 2 = 7 - ⌊(7 : ℚ) / 2⌋ * 2) ∧
    ((0 : ℚ) = 0 ∧ niceMod 7 0 = 0) :=
  ⟨⟨by norm_num,
    (mod_eval_niceMod 7 2 0 0 0 0 0 0 vzero []).2.1 (by norm_num)⟩,
   ⟨rfl, (mod_eval_niceMod 7 0 0 0 0 0 0 0 vzero []).2.2.1 rfl⟩⟩

/-- C4: logical And and Or short-circuit. When the left operand evaluates to
0, `And(a, X)` writes 0 into lane 0 and stops; its result and final store are
those reached after evaluating only `a`, hence independent of `X`. When the
left operand evaluates nonzero, `Or(a, X)` writes 1 into lane 0 and is
likewise independent of `X`. -/
theorem and_or_short_circuit (iv : Bool) (a x x2 : RExpr) (res : Vec3)
    (st : Store) :
    ((evalR a vzero st).1.x = 0 →
      evalR (.andR iv a x) res st = ({ res with x := 0 }, (evalR a vzero st).2) ∧
      evalR (.andR iv a x) res st = evalR (.andR iv a x2) res st) ∧
    ((evalR a vzero st).1.x ≠ 0 →
      evalR (.orR iv a x) res st = ({ res with x := 1 }, (evalR a vzero st).2) ∧
      evalR (.orR iv a x) res st = evalR (.orR iv a x2) res st) := by
  constructor
  · intro h
    constructor
    · simp [evalR, h]
    · simp [evalR, h]
  · intro h
    constructor
    · simp [evalR, h]
    · simp [evalR, h]

/-- C4, witness: with a left operand evaluating to 0, `And` ignores a right
operand that would assign to a local variable; with a left operand evaluating
to 1, `Or` does the same. -/
theorem and_or_short_circuit_witness :
    evalR (.andR false (.num false 0)
        (.assign false (Option.some 0) (.num false 7))) vzero [] =
      evalR (.andR false (.num false 0) (.num false 3)) vzero [] ∧
    evalR (.orR false (.num false 1)
        (.assign false (Option.some 0) (.num false 7))) vzero [] =
      evalR (.orR false (.num false 1) (.num false 3)) vzero [] :=
  ⟨((and_or_short_circuit false (.num false 0)
      (.assign false (Option.some 0) (.num false 7)) (.num false 3) vzero []).1
      (by simp [evalR, vzero])).2,
   ((and_or_short_circuit false (.num false 1)
      (.assign false (Option.some 0) (.num false 7)) (.num false 3) vzero []).2
      (by simp [evalR, vzero])).2⟩

/-- C7: the Subscript node truncates lane 0 of its index toward zero; on a
3-wide vector operand it selects the corresponding lane for index 0, 1 or 2
and yields 0 for any other index; on a scalar operand it yields the operand's
lane 0 for index 0, 1 or 2 and 0 otherwise. -/
theorem subscript_eval_spec (iv ivi : Bool) (q a b c s : ℚ) (res : Vec3)
    (st : Store) :
    ((evalR (.subscript iv
        (.vec true (.num false a) (.num false b) (.num false c))
        (.num ivi q)) res st).1.x =
      (if truncQ q = 0 then a else if truncQ q = 1 then b
       else if truncQ q = 2 then c else 0)) ∧
    ((evalR (.subscript iv (.num false s) (.num ivi q)) res st).1.x =
      (if truncQ q = 0 ∨ truncQ q = 1 ∨ truncQ q = 2 then s else 0)) := by
  constructor
  · simp [evalR, RExpr.isVec]
  · simp only [evalR, RExpr.isVec]
    split_ifs <;> tauto

/-- C9: the broadcasting law for every binary arithmetic operator — a scalar
left operand combined with a 3-wide vector gives the same result and store,
lane for lane, as the explicitly replicated vector `[s,s,s]` combined with
it. -/
theorem arith_broadcast_law (op : ArithKind) (s v1 v2 v3 : ℚ) (res : Vec3)
    (st : Store) :
    evalR (mkArithR op true (.num false s)
      (.vec true (.num false v1) (.num false v2) (.num false v3))) res st =
    evalR (mkArithR op true
      (.vec true (.num false s) (.num false s) (.num false s))
      (.vec true (.num false v1) (.num false v2) (.num false v3))) res st := by
  cases op <;> simp [mkArithR, evalR, RExpr.isVec, binArithEval, bcast]

/-- C1: SeExprCondNode::prep (lines 400-441) error-reports when the branch
type `isa(wanted)` holds, not when it fails. On the ternary `1 ? 2 : 3`
prepped with wanted FP1 — condition FP1, both branches valid FP1, both
compatible with the wanted type — the source therefore records two
"Expected FP1 ... but found FP1" messages and returns Error, where the claim
requires the then-branch's type FP1 with no error recorded. -/
theorem cond_prep_inverted_at_fp1 :
    prep emptyCtx (.cond (.num 1) (.num 2) (.num 3)) .fp1 [[]] [] =
      (.error, [[]],
        ["Expected FP1 type from then branch of ternary conditional expression but found FP1",
         "Expected FP1 type from else branch of ternary conditional expression but found FP1"]) ∧
    SeExprType.fp1.isa .fp1 = true ∧ SeExprType.fp1.isValid = true := by
  refine ⟨?_, rfl, rfl⟩
  simp [prep, checkIsa, SeExprType.isValid, SeExprType.isa, SeExprType.toStr]

/-- C8: on the missing-function path of SeExprFuncNode::prep (lines
1493-1496) the error flag is never set — the source comments it out, claiming
"_type is already Error and won't change", but the base-class
SeExprNode::prep called right after overwrites `_type` with None when every
child is valid. Prepping a call to an unresolvable function with no arguments
therefore records "Function noise has no definition" yet returns the valid
type None, so the returned type is not Error while the error list is
non-empty. -/
theorem missing_func_prep_valid_type_with_error :
    prep emptyCtx (.func "noise" .nil) .any [[]] [] =
      (SeExprType.none, [[]], ["Function noise has no definition"]) ∧
    SeExprType.none.isValid = true := by
  refine ⟨?_, rfl⟩
  simp [prep, anyPrepList, emptyCtx]

/-- Lookup in an environment right after `envAddVar` finds the added binding
in the innermost frame. -/
theorem envFind_envAddVar (env : Env) (n : String) (t : SeExprType) :
    envFind (envAddVar env n t) n = Option.some t := by
  cases env <;> simp [envAddVar, envFind, frameLookup, List.find?]

/-- C10: SeExprAssignNode::prep (lines 309-323) adds the name to the
environment bound to a new LocalVar carrying the right-hand side's prepped
type unconditionally — including when that type is Error — so a later Var
node for the name resolves to the local binding, reports no "No variable
named" error and returns the assigned type. -/
theorem assign_prep_binds_even_error (ctx : Ctx) (n : String) (rhs : Expr)
    (w w2 : SeExprType) (env : Env) (errs errs2 : Errs) :
    (prep ctx (.assign n rhs) w env errs).2.1 =
      envAddVar (prep ctx rhs .any env errs).2.1 n (prep ctx rhs .any env errs).1 ∧
    envFind (prep ctx (.assign n rhs) w env errs).2.1 n =
      Option.some (prep ctx rhs .any env errs).1 ∧
    prep ctx (.varN n) w2 (prep ctx (.assign n rhs) w env errs).2.1 errs2 =
      ((prep ctx rhs .any env errs).1,
       (prep ctx (.assign n rhs) w env errs).2.1, errs2) := by
  have henv : (prep ctx (.assign n rhs) w env errs).2.1 =
      envAddVar (prep ctx rhs .any env errs).2.1 n (prep ctx rhs .any env errs).1 := by
    simp [prep]
  have hfind := henv ▸ envFind_envAddVar (prep ctx rhs .any env errs).2.1 n
    (prep ctx rhs .any env errs).1
  refine ⟨henv, hfind, ?_⟩
  simp [prep, envFind_envAddVar]

/-- A type is invalid exactly when it is the poisoned Error type. -/
theorem isValid_eq_false_iff (t : SeExprType) : t.isValid = false ↔ t = .error := by
  cases t <;> simp [SeExprType.isValid]

/-- The error contribution of the shared operand check: set when the operand
type is invalid or fails the `isa` requirement. -/
theorem checkIsa_fst (w t : SeExprType) (m : String) (e : Errs) :
    (checkIsa w t m e).1 = (!t.isValid || !(t.isa w)) := by
  simp only [checkIsa]
  split_ifs <;> simp_all

/-- The type computed by the shared binary-numeric tail: Error when any check
fired, else FP1 for comparisons and the wider operand for arithmetic. -/
theorem binFinish_fst (arith : Bool) (op : String) (t1 t2 : SeExprType)
    (e1 e2 : Bool) (errs : Errs) :
    (binFinish arith op t1 t2 e1 e2 errs).1 =
      (if e1 || e2 || (t1.isValid && t2.isValid && !(t1.compatibleNum t2))
       then .error else if arith then (if t1.isFP1 then t2 else t1) else .fp1) := by
  simp only [binFinish]
  split_ifs <;> simp_all

/-- Case analysis of the arithmetic type rule over the two operand types. -/
theorem binFinish_arith_spec (op m1 m2 : String) (t1 t2 : SeExprType)
    (ea eb ec : Errs) :
    (t1.isValid = true → t2.isValid = true → t1.compatibleNum t2 = true →
      ((t1 = .fp1 ∧ t2 = .fp1 →
        (binFinish true op t1 t2 (checkIsa .numeric t1 m1 ea).1
          (checkIsa .numeric t2 m2 eb).1 ec).1 = .fp1) ∧
       ((t1 = .fpn 3 ∨ t2 = .fpn 3) →
        (binFinish true op t1 t2 (checkIsa .numeric t1 m1 ea).1
          (checkIsa .numeric t2 m2 eb).1 ec).1 = .fpn 3))) ∧
    ((t1.isa .numeric = false ∨ t2.isa .numeric = false ∨
      t1.compatibleNum t2 = false) →
      (binFinish true op t1 t2 (checkIsa .numeric t1 m1 ea).1
        (checkIsa .numeric t2 m2 eb).1 ec).1 = .error) := by
  rw [binFinish_fst, checkIsa_fst, checkIsa_fst]
  constructor
  · intro hv1 hv2 hc
    have hcc : (t1 = SeExprType.fp1 ∨ t1 = .fpn 3) ∧
        (t2 = SeExprType.fp1 ∨ t2 = .fpn 3) := by
      simpa [SeExprType.compatibleNum] using hc
    rcases hcc with ⟨h1 | h1, h2 | h2⟩ <;> subst h1 <;> subst h2 <;>
      simp [SeExprType.isValid, SeExprType.isa, SeExprType.isFP1,
        SeExprType.compatibleNum]
  · intro h
    rcases h with h | h | h
    · simp [h]
    · simp [h]
    · by_cases hv1 : t1.isValid
      · by_cases hv2 : t2.isValid
        · simp [h, hv1, hv2]
        · have h2 : t2 = .error := (isValid_eq_false_iff t2).1 (by simpa using hv2)
          subst h2; simp [SeExprType.isa]
      · have h1 : t1 = .error := (isValid_eq_false_iff t1).1 (by simpa using hv1)
        subst h1; simp [SeExprType.isa]

/-- C6: for each binary arithmetic node Add, Sub, Mul, Div, Mod and Exp, when
the two operands prep (with wanted Numeric, in source order) to valid types
`t1` and `t2` that are compatibleNum, the node's own type is FP1 when both
are FP1 and FPN(3) when at least one is FPN(3); when either operand fails the
Numeric requirement or the pair is not compatibleNum, the node's type is
Error. -/
theorem arith_prep_wider (ctx : Ctx) (op : ArithKind) (a b : Expr)
    (w : SeExprType) (env env1 env2 : Env) (errs errs1 errs2 : Errs)
    (t1 t2 : SeExprType)
    (h1 : prep ctx a .numeric env errs = (t1, env1, errs1))
    (h2 : prep ctx b .numeric env1
      (checkIsa .numeric t1 (numOperandMsg "first" (opStr op) t1) errs1).2 =
      (t2, env2, errs2)) :
    (t1.isValid = true → t2.isValid = true → t1.compatibleNum t2 = true →
      ((t1 = .fp1 ∧ t2 = .fp1 →
        (prep ctx (mkArithE op a b) w env errs).1 = .fp1) ∧
       ((t1 = .fpn 3 ∨ t2 = .fpn 3) →
        (prep ctx (mkArithE op a b) w env errs).1 = .fpn 3))) ∧
    ((t1.isa .numeric = false ∨ t2.isa .numeric = false ∨
      t1.compatibleNum t2 = false) →
      (prep ctx (mkArithE op a b) w env errs).1 = .error) := by
  have hr : (prep ctx (mkArithE op a b) w env errs).1 =
      (binFinish true (opStr op) t1 t2
        (checkIsa .numeric t1 (numOperandMsg "first" (opStr op) t1) errs1).1
        (checkIsa .numeric t2 (numOperandMsg "second" (opStr op) t2) errs2).1
        (checkIsa .numeric t2 (numOperandMsg "second" (opStr op) t2) errs2).2).1 := by
    cases op <;> simp only [mkArithE, opStr] at h1 h2 ⊢ <;>
      simp [prep, binNumPrep, h1, h2]
  rw [hr]
  exact binFinish_arith_spec (opStr op) _ _ t1 t2 errs1 errs2 _

/-- C6, witness: `1 + [1,2,3]` preps to FPN(3); `1 * "s"` preps to Error. -/
theorem arith_prep_wider_witness :
    (prep emptyCtx (mkArithE .addK (.num 1)
      (.vec (.num 1) (.num 2) (.num 3))) .any [[]] []).1 = .fpn 3 ∧
    (prep emptyCtx (mkArithE .mulK (.num 1) (.strN "s")) .any [[]] []).1 = .error :=
  ⟨((arith_prep_wider emptyCtx .addK (.num 1) (.vec (.num 1) (.num 2) (.num 3)) .any
      [[]] [[]] [[]] [] [] [] .fp1 (.fpn 3)
      (by simp [prep])
      (by simp [prep, checkIsa, numOperandMsg, opStr, SeExprType.isValid,
        SeExprType.isa])).1
      rfl rfl (by decide)).2 (Or.inr rfl),
   (arith_prep_wider emptyCtx .mulK (.num 1) (.strN "s") .any
      [[]] [[]] [[]] [] [] [] .fp1 .str
      (by simp [prep])
      (by simp [prep, checkIsa, numOperandMsg, opStr, SeExprType.isValid,
        SeExprType.isa])).2
      (Or.inr (Or.inl rfl))⟩

/-- C5: SeExprIfThenElseNode::prep preps the then and else branches in fresh
child scopes of the parent environment; it succeeds only if `changesMatch`
holds between the two branch scopes. On match the then-branch's additions are
merged into the parent environment and (when the condition check passed and
both branches are valid) the node's type is None; on mismatch the error
"Types of variables do not match after if statement" is recorded and the type
is Error. -/
theorem ifthenelse_prep_scopes (ctx : Ctx) (c t e : Expr) (w : SeExprType)
    (env : Env) (errs : Errs) (tc tt te : SeExprType) (envC envT envE : Env)
    (errsC errsT errsE : Errs)
    (hc : prep ctx c .fp1 env errs = (tc, envC, errsC))
    (ht : prep ctx t .any (newScope envC)
      (checkIsa .fp1 tc
        ("Expected FP1 type in condition expression of if statement but found "
          ++ tc.toStr) errsC).2 = (tt, envT, errsT))
    (he : prep ctx e .any (newScope (tailEnv envT)) errsT = (te, envE, errsE)) :
    (changesMatch (headFrame envT) (headFrame envE) = true →
      (prep ctx (.ifThenElse c t e) w env errs).2.1 =
        envAddFrame (tailEnv envE) (headFrame envT) ∧
      ((checkIsa .fp1 tc
          ("Expected FP1 type in condition expression of if statement but found "
            ++ tc.toStr) errsC).1 = false → tt.isValid = true → te.isValid = true →
        (prep ctx (.ifThenElse c t e) w env errs).1 = SeExprType.none)) ∧
    (changesMatch (headFrame envT) (headFrame envE) = false →
      (prep ctx (.ifThenElse c t e) w env errs).1 = .error ∧
      (prep ctx (.ifThenElse c t e) w env errs).2.2 =
        errsE ++ ["Types of variables do not match after if statement"]) ∧
    ((prep ctx (.ifThenElse c t e) w env errs).1 ≠ .error →
      changesMatch (headFrame envT) (headFrame envE) = true) := by
  have hu : prep ctx (.ifThenElse c t e) w env errs =
      (if changesMatch (headFrame envT) (headFrame envE) then
        ((if (checkIsa .fp1 tc
            ("Expected FP1 type in condition expression of if statement but found "
              ++ tc.toStr) errsC).1 || (!tt.isValid || !te.isValid)
          then .error else SeExprType.none),
         envAddFrame (tailEnv envE) (headFrame envT), errsE)
      else
        (.error, tailEnv envE,
         errsE ++ ["Types of variables do not match after if statement"])) := by
    simp [prep, hc, ht, he]
  refine ⟨?_, ?_, ?_⟩
  · intro hm
    rw [hu, if_pos hm]
    refine ⟨rfl, ?_⟩
    intro hk h2 h3
    simp [hk, h2, h3]
  · intro hm
    rw [hu, if_neg (by simp [hm])]
    exact ⟨rfl, rfl⟩
  · intro hne
    by_cases hm : changesMatch (headFrame envT) (headFrame envE)
    · exact hm
    · exfalso
      apply hne
      rw [hu, if_neg hm]

/-- C5, witness: `if (1) { $x = 5; } else { $x = 7; }` preps to None, while
`if (1) { $x = 5; } else { $y = 7; }` records the scope-mismatch error. -/
theorem ifthenelse_prep_scopes_witness :
    (prep emptyCtx (.ifThenElse (.num 1) (.assign "x" (.num 5))
      (.assign "x" (.num 7))) .any [[]] []).1 = SeExprType.none ∧
    (prep emptyCtx (.ifThenElse (.num 1) (.assign "x" (.num 5))
      (.assign "y" (.num 7))) .any [[]] []).2.2 =
      ["Types of variables do not match after if statement"] :=
  ⟨((ifthenelse_prep_scopes emptyCtx (.num 1) (.assign "x" (.num 5))
      (.assign "x" (.num 7)) .any [[]] []
      .fp1 SeExprType.none SeExprType.none [[]] [[("x", .fp1)], []]
      [[("x", .fp1)], []] [] [] []
      (by simp [prep])
      (by simp [prep, checkIsa, newScope, envAddVar, SeExprType.isValid,
        SeExprType.isa])
      (by simp [prep, checkIsa, newScope, envAddVar, tailEnv,
        SeExprType.isValid, SeExprType.isa])).1
      (by decide)).2 rfl rfl rfl,
   ((ifthenelse_prep_scopes emptyCtx (.num 1) (.assign "x" (.num 5))
      (.assign "y" (.num 7)) .any [[]] []
      .fp1 SeExprType.none SeExprType.none [[]] [[("x", .fp1)], []]
      [[("y", .fp1)], []] [] [] []
      (by simp [prep])
      (by simp [prep, checkIsa, newScope, envAddVar, SeExprType.isValid,
        SeExprType.isa])
      (by simp [prep, checkIsa, newScope, envAddVar, tailEnv,
        SeExprType.isValid, SeExprType.isa])).2.1
      (by decide)).2⟩

end SeExpr
